import Mathlib

/-!
Verification of the dfwinreg registry virtualization and search layer.

This file gives a shallow embedding, in Lean 4, of the parts of the
dfwinreg source that the verified properties talk about:

* `dfwinreg/key_paths.py`      (key path join/split),
* `dfwinreg/interface.py`      (value type predicates, data type numbers),
* `dfwinreg/fake.py`           (fake registry keys, values and files),
* `dfwinreg/registry.py`       (`WinRegistry`: cached backend lookup,
                                `GetKeyByPath`, `_GetCurrentControlSet`,
                                `GetRootKey`, and its private
                                `VirtualWinRegistryKey` class),
* `dfwinreg/virtual.py`        (`VirtualWinRegistryKey`),
* `dfwinreg/glob2regex.py`     (`Glob2Regex`),
* `dfwinreg/registry_searcher.py` (`FindSpec`, `WinRegistrySearcher`).

Python-level effects are made explicit: functions that can raise are
embedded as `Except PyErr`; `None`-or-object results are `Option`s;
Python 3 semantics of the builtins used by the source (`str.partition`,
`str.split`, `filter`, keyword-argument binding, `int` comparisons with
non-`int` objects) are embedded by small helper definitions next to
their uses.
-/

/-- Python exceptions raised (or propagated) by the embedded code.
`outOfFuel` is an artifact of the embedding only: the mutual recursion
between `WinRegistry.GetKeyByPath` and `WinRegistry._GetCurrentControlSet`
is bounded by an explicit fuel parameter, and `outOfFuel` marks the
(never exercised) exhaustion branch. -/
inductive PyErr where
  | runtimeError (msg : String)
  | typeError
  | keyError
  | valueError
  | indexError
  | winRegistryValueError
  | outOfFuel
deriving Repr, DecidableEq

/-- Python objects a `FakeWinRegistryValue.GetDataAsObject` call can return. -/
inductive PyObj where
  | noneObj
  | intObj (n : Int)
  | strObj (s : String)
  | bytesObj (bs : List Nat)
  | listObj (l : List String)
deriving Repr, DecidableEq

/-- Python truthiness of the objects above (`bool(x)`). -/
def pyTruthy : PyObj → Bool
  | .noneObj => false
  | .intObj n => n ≠ 0
  | .strObj s => s ≠ ""
  | .bytesObj bs => bs ≠ []
  | .listObj l => l ≠ []

/-- Python 3 semantics of `x > m` for an `int` literal `m`: comparing a
non-`int` object (`None`, `bytes`, ...) with an `int` raises `TypeError`. -/
def pyGtInt : PyObj → Int → Except PyErr Bool
  | .intObj n, m => pure (n > m)
  | _, _ => throw .typeError

/-- Python 3 semantics of `x <= m` for an `int` literal `m`. -/
def pyLeInt : PyObj → Int → Except PyErr Bool
  | .intObj n, m => pure (n ≤ m)
  | _, _ => throw .typeError

/-! Python string builtins, embedded structurally on character lists (the
corresponding Lean core `String` functions are extensionally the same but
are defined by well-founded recursion on byte positions, which blocks
definitional evaluation inside proofs).  The source only manipulates
ASCII key paths, for which Python `str.upper` agrees with
`Char.toUpper`. -/

/-- Python `s.upper()`. -/
def pyToUpper (s : String) : String := ⟨s.data.map Char.toUpper⟩

/-- Python `s.startswith(p)`. -/
def pyStartsWith (s p : String) : Bool := p.data.isPrefixOf s.data

/-- Python `s[n:]` (and `str.__len__` is `String.length`, the character
count). -/
def pyDrop (s : String) (n : Nat) : String := ⟨s.data.drop n⟩

/-- Helper for `pyPartition`: the text before and after the first
occurrence of `sep`, if any.  The fuel is the input length. -/
def partitionAux (sep : List Char) : Nat → List Char → Option (List Char × List Char)
  | _, [] => none
  | 0, _ => none
  | fuel + 1, c :: rest =>
    if sep.isPrefixOf (c :: rest) then some ([], (c :: rest).drop sep.length)
    else
      match partitionAux sep fuel rest with
      | none => none
      | some (pre, post) => some (c :: pre, post)

/-- Python `s.partition(sep)`: split at the first occurrence of `sep`,
returning `(before, sep, after)`, or `(s, '', '')` when absent. -/
def pyPartition (s sep : String) : String × String × String :=
  match partitionAux sep.data s.data.length s.data with
  | none => (s, "", "")
  | some (pre, post) => (⟨pre⟩, sep, ⟨post⟩)

/-- Helper for `pySplitOn`: Python `str.split` for a non-empty separator
token list.  The fuel is the input length. -/
def splitOnListAux (sep : List Char) : Nat → List Char → List (List Char)
  | _, [] => [[]]
  | 0, s => [s]
  | fuel + 1, c :: rest =>
    if sep.isPrefixOf (c :: rest) then
      [] :: splitOnListAux sep fuel ((c :: rest).drop sep.length)
    else
      match splitOnListAux sep fuel rest with
      | [] => [[c]]
      | h :: t => (c :: h) :: t

/-- Python `s.split(sep)` for a non-empty separator (`str.split` of an
empty separator raises `ValueError` and does not occur in the source). -/
def pySplitOn (s sep : String) : List String :=
  if sep.data = [] then [s]
  else (splitOnListAux sep.data s.data.length s.data).map (fun cs => (⟨cs⟩ : String))

/-- Helper for `pyReplace`: leftmost, non-overlapping replacement.  The
fuel is the input length. -/
def replaceAux (old new : List Char) : Nat → List Char → List Char
  | _, [] => []
  | 0, s => s
  | fuel + 1, c :: rest =>
    if old.isPrefixOf (c :: rest) then
      new ++ replaceAux old new fuel ((c :: rest).drop old.length)
    else c :: replaceAux old new fuel rest

/-- Python `s.replace(old, new)` for a non-empty `old` (the source only
replaces `'\\/'`). -/
def pyReplace (s old new : String) : String :=
  if old.data = [] then s
  else ⟨replaceAux old.data new.data s.data.length s.data⟩

/-! ## `dfwinreg/key_paths.py`

`JoinKeyPath` is embedded at the character-list level so that its
algebraic properties can be proved by induction; `SplitKeyPath` is the
string-level split used throughout the rest of the source
(`list(filter(None, key_path.split(path_seperator)))`). -/

/-- Python `str.split(sep)` for a single-character separator, on
character lists (`''.split(sep) == ['']`). -/
def splitOnChar (sep : Char) : List Char → List (List Char)
  | [] => [[]]
  | c :: rest =>
    let r := splitOnChar sep rest
    if c = sep then [] :: r
    else
      match r with
      | [] => [[c]]
      | h :: t => (c :: h) :: t

/-- Python `sep.join(pieces)` for a single-character separator. -/
def joinSep (sep : Char) : List (List Char) → List Char
  | [] => []
  | [x] => x
  | x :: xs => x ++ sep :: joinSep sep xs

/-- `definitions.KEY_PATH_SEPARATOR`. -/
def KEY_PATH_SEPARATOR : Char := '\\'

/-- The character list of the literal `'HKEY_'` tested by
`key_paths.JoinKeyPath`. -/
def HKEY_PREFIX : List Char := ['H', 'K', 'E', 'Y', '_']

/-- `key_paths.JoinKeyPath` on character lists: split every segment on
the separator, flatten, drop empty segments, rejoin, and prepend a
separator unless the result starts with `'HKEY_'`. -/
def JoinKeyPathChars (path_segments : List (List Char)) : List Char :=
  let pieces :=
    ((path_segments.map (splitOnChar KEY_PATH_SEPARATOR)).flatten).filter
      (fun piece => piece ≠ [])
  let key_path := joinSep KEY_PATH_SEPARATOR pieces
  if HKEY_PREFIX.isPrefixOf key_path then key_path
  else KEY_PATH_SEPARATOR :: key_path

/-- `key_paths.JoinKeyPath` on strings. -/
def JoinKeyPath (path_segments : List String) : String :=
  ⟨JoinKeyPathChars (path_segments.map String.data)⟩

/-- `key_paths.SplitKeyPath(key_path, path_seperator)`:
`list(filter(None, key_path.split(path_seperator)))`. -/
def SplitKeyPathSep (key_path path_seperator : String) : List String :=
  (pySplitOn key_path path_seperator).filter (fun s => s ≠ "")

/-- `key_paths.SplitKeyPath` at its default separator `'\\'`. -/
def SplitKeyPath (key_path : String) : List String :=
  SplitKeyPathSep key_path "\\"

/-! ## Registry value data types

Numeric values of the `REG_*` constants.  `dfwinreg/definitions.py` is not
part of the sources at hand; the numbers below are modelled from the spec's
value-type taxonomy and are pinned by the in-source table
`WinRegistryValue._DATA_TYPE_STRINGS` of `dfwinreg/interface.py`
(0 REG_NONE, 1 REG_SZ, 2 REG_EXPAND_SZ, 3 REG_BINARY, 4 REG_DWORD(_LE),
5 REG_DWORD_BE, 6 REG_LINK, 7 REG_MULTI_SZ, 11 REG_QWORD). -/

def REG_NONE : Nat := 0
def REG_SZ : Nat := 1
def REG_EXPAND_SZ : Nat := 2
def REG_BINARY : Nat := 3
def REG_DWORD : Nat := 4
def REG_DWORD_BIG_ENDIAN : Nat := 5
def REG_LINK : Nat := 6
def REG_MULTI_SZ : Nat := 7
def REG_QWORD : Nat := 11

/-! ## `FakeWinRegistryValue` (`dfwinreg/fake.py`) -/

/-- A `FakeWinRegistryValue`: a name, raw value data as a byte list, and a
numeric data type.  (`_data_size` of the source is `data.length`.) -/
structure FakeValue where
  name : String
  data : List Nat
  data_type : Nat
deriving Repr, DecidableEq

/-- `WinRegistryValue.DataIsInteger` (`dfwinreg/interface.py`): the data
type is `REG_DWORD`, `REG_DWORD_BIG_ENDIAN` or `REG_QWORD`. -/
def fvDataIsInteger (v : FakeValue) : Bool :=
  v.data_type = REG_DWORD ∨ v.data_type = REG_DWORD_BIG_ENDIAN ∨
    v.data_type = REG_QWORD

/-- Little-endian byte-list to natural number. -/
def leNat : List Nat → Nat
  | [] => 0
  | b :: rest => b + 256 * leNat rest

/-- dtfabric `int32le`: signed 32-bit little-endian. -/
def int32le (bs : List Nat) : Int :=
  let n := leNat bs
  if n < 2 ^ 31 then (n : Int) else (n : Int) - 2 ^ 32

/-- dtfabric `int32be`: signed 32-bit big-endian. -/
def int32be (bs : List Nat) : Int := int32le bs.reverse

/-- dtfabric `int64le`: signed 64-bit little-endian. -/
def int64le (bs : List Nat) : Int :=
  let n := leNat bs
  if n < 2 ^ 63 then (n : Int) else (n : Int) - 2 ^ 64

/-- Bytes to UTF-16 code units (little endian); `none` on an odd number of
bytes (Python `bytes.decode('utf-16-le')` raises `UnicodeDecodeError`). -/
def bytesToUnits : List Nat → Option (List Nat)
  | [] => some []
  | [_] => none
  | b0 :: b1 :: rest => (bytesToUnits rest).map (fun us => (b0 + 256 * b1) :: us)

/-- UTF-16 code units to characters; `none` on an unpaired surrogate
(Python raises `UnicodeDecodeError`). -/
def unitsToChars : List Nat → Option (List Char)
  | [] => some []
  | u :: rest =>
    if u < 0xD800 ∨ 0xE000 ≤ u then
      (unitsToChars rest).map (fun cs => Char.ofNat u :: cs)
    else if 0xDC00 ≤ u then none
    else
      match rest with
      | [] => none
      | u2 :: rest2 =>
        if 0xDC00 ≤ u2 ∧ u2 < 0xE000 then
          (unitsToChars rest2).map
            (fun cs => Char.ofNat (0x10000 + (u - 0xD800) * 0x400 + (u2 - 0xDC00)) :: cs)
        else none

/-- Python `data.decode('utf-16-le')`; `none` models `UnicodeDecodeError`. -/
def utf16leDecode (bs : List Nat) : Option String := do
  let us ← bytesToUnits bs
  let cs ← unitsToChars us
  pure ⟨cs⟩

/-- The embedded null terminator `'\x00'` that `REG_MULTI_SZ` decoding
splits on. -/
def nullString : String := ⟨[Char.ofNat 0]⟩

/-- `FakeWinRegistryValue.GetDataAsObject` (`dfwinreg/fake.py:368-425`):
empty data gives `None`; string types UTF-16-LE decode (decode failure
raises `WinRegistryValueError`); `REG_DWORD`/`REG_DWORD_BIG_ENDIAN`/
`REG_QWORD` decode as fixed-width integers only when the data size equals
the width; `REG_MULTI_SZ` decodes and splits on the null terminator; any
remaining case returns the raw data unchanged.  (The source's
`AttributeError` branch for non-`bytes` data objects is outside this
embedding: `data` is always a byte list here.) -/
def GetDataAsObject (v : FakeValue) : Except PyErr PyObj :=
  if v.data = [] then pure .noneObj
  else if v.data_type = REG_SZ ∨ v.data_type = REG_EXPAND_SZ ∨ v.data_type = REG_LINK then
    match utf16leDecode v.data with
    | some s => pure (.strObj s)
    | none => throw .winRegistryValueError
  else if v.data_type = REG_DWORD ∧ v.data.length = 4 then
    pure (.intObj (int32le v.data))
  else if v.data_type = REG_DWORD_BIG_ENDIAN ∧ v.data.length = 4 then
    pure (.intObj (int32be v.data))
  else if v.data_type = REG_QWORD ∧ v.data.length = 8 then
    pure (.intObj (int64le v.data))
  else if v.data_type = REG_MULTI_SZ then
    match utf16leDecode v.data with
    | some s => pure (.listObj ((pySplitOn s nullString).filter (fun x => x ≠ "")))
    | none => throw .winRegistryValueError
  else pure (.bytesObj v.data)

/-! ## `FakeWinRegistryKey` and `FakeWinRegistryFile` (`dfwinreg/fake.py`)

Subkey and value dictionaries are embedded as association lists in
insertion order whose lookup keys are the upper-cased names, exactly as
`AddSubkey`/`AddValue`/`_BuildKeyHierarchy` store them. -/

/-- A `FakeWinRegistryKey`: name, subkeys keyed by upper-cased name, and
values keyed by upper-cased name. -/
inductive FKey where
  | mk (name : String) (subkeys : List (String × FKey))
      (values : List (String × FakeValue))

/-- The key's name. -/
def FKey.keyName : FKey → String
  | .mk n _ _ => n

/-- The subkey dictionary (upper-cased name keys, insertion order). -/
def FKey.subkeyEntries : FKey → List (String × FKey)
  | .mk _ s _ => s

/-- The value dictionary (upper-cased name keys, insertion order). -/
def FKey.valueEntries : FKey → List (String × FakeValue)
  | .mk _ _ v => v

/-- `FakeWinRegistryKey.GetSubkeyByName`: `self._subkeys.get(name.upper())`. -/
def FKey.getSubkeyByName (k : FKey) (nm : String) : Option FKey :=
  k.subkeyEntries.lookup (pyToUpper nm)

/-- `FakeWinRegistryKey.GetValueByName`: `self._values.get(name.upper())`. -/
def FKey.getValueByName (k : FKey) (nm : String) : Option FakeValue :=
  k.valueEntries.lookup (pyToUpper nm)

/-- `FakeWinRegistryKey.GetSubkeys`: the dictionary's values in insertion
order. -/
def FKey.subkeysList (k : FKey) : List FKey :=
  k.subkeyEntries.map Prod.snd

/-- Walk a relative path, segment by segment, through `GetSubkeyByName`
(the loop of `FakeWinRegistryFile.GetKeyByPath`). -/
def fkeyWalk : FKey → List String → Option FKey
  | k, [] => some k
  | k, s :: rest =>
    match k.getSubkeyByName s with
    | none => none
    | some k2 => fkeyWalk k2 rest

/-- A `FakeWinRegistryFile`: the key path prefix (as set by
`SetKeyPathPrefix`, which `WinRegistry.MapFile` calls) and the root key. -/
structure FakeRegFile where
  key_path_prefix : String
  root_key : Option FKey

/-- `FakeWinRegistryFile.GetKeyByPath` (`dfwinreg/fake.py:67-95`): compute
the relative key path (strip the prefix case-insensitively, or accept a
path that starts with the separator), then walk it from the root key. -/
def fakeFileGetKeyByPath (f : FakeRegFile) (key_path : String) : Option FKey :=
  let key_path_upper := pyToUpper key_path
  let rel? :=
    if pyStartsWith key_path_upper (pyToUpper f.key_path_prefix) then
      some (pyDrop key_path f.key_path_prefix.length)
    else if pyStartsWith key_path "\\" then some key_path
    else none
  match rel? with
  | none => none
  | some relative_key_path =>
    match f.root_key with
    | none => none
    | some root => fkeyWalk root (SplitKeyPath relative_key_path)

/-! ## `WinRegistry` (`dfwinreg/registry.py`)

The registry state is the `_registry_files` table: key path prefixes in
upper case mapped to opened registry files, in insertion (`MapFile`)
order.  The `registry_file_reader` of the modelled instances is `None`,
so `_OpenFile` returns `None` and `_GetFileByPath` reduces to the cached
lookup `_GetCachedFileByPath` (the mapping-candidates loop of
`_GetFileByPath` never acquires a file). -/

/-- `WinRegistry._registry_files`: upper-cased prefix to file, insertion
order. -/
structure RegState where
  files : List (String × FakeRegFile)

/-- `WinRegistry._ROOT_KEY_ALIASES`. -/
def ROOT_KEY_ALIASES : List (String × String) :=
  [("HKCC", "HKEY_CURRENT_CONFIG"),
   ("HKCR", "HKEY_CLASSES_ROOT"),
   ("HKCU", "HKEY_CURRENT_USER"),
   ("HKLM", "HKEY_LOCAL_MACHINE"),
   ("HKU", "HKEY_USERS")]

/-- `WinRegistry._ROOT_KEYS`. -/
def ROOT_KEYS : List String :=
  ["HKEY_CLASSES_ROOT", "HKEY_CURRENT_CONFIG", "HKEY_CURRENT_USER",
   "HKEY_DYN_DATA", "HKEY_LOCAL_MACHINE", "HKEY_PERFORMANCE_DATA",
   "HKEY_USERS"]

/-- The single entry of `WinRegistry._VIRTUAL_KEYS`. -/
def VIRTUAL_KEY_PATH : String := "HKEY_LOCAL_MACHINE\\System\\CurrentControlSet"

/-- `WinRegistry._GetCachedFileByPath` (`dfwinreg/registry.py:332-360`):
scan the table for keys that are plain `str.startswith` prefixes of the
upper-cased requested path, keep the longest, and return it with its
file; `none` when no key matches.  (The source returns the pair
`(None, None)` in that case, and `(prefix, table.get(prefix))`
otherwise; a table hit always carries its file, so the pair is collapsed
into one `Option`.) -/
def getCachedFileByPath (files : List (String × FakeRegFile))
    (key_path_upper : String) : Option (String × FakeRegFile) :=
  let longest := files.foldl
    (fun acc pf =>
      if pyStartsWith key_path_upper pf.1 ∧ acc.length < pf.1.length then pf.1
      else acc) ""
  if longest = "" then none
  else
    match files.lookup longest with
    | some f => some (longest, f)
    | none => none

/-- Steps (1)-(3) of `WinRegistry.GetKeyByPath`
(`dfwinreg/registry.py:476-486`): partition off the root segment,
upper-case it, resolve an alias, fail on an unsupported root, and rejoin
`root + '\\' + rest`. -/
def resolveRootAndJoin (key_path : String) : Except PyErr String :=
  let parts := pyPartition key_path "\\"
  let root0 := pyToUpper parts.1
  let root := (ROOT_KEY_ALIASES.lookup root0).getD root0
  if root ∈ ROOT_KEYS then pure (root ++ "\\" ++ parts.2.2)
  else throw (.runtimeError ("Unsupported root key: " ++ root))

/-- The virtual-key loop of `WinRegistry.GetKeyByPath`
(`dfwinreg/registry.py:496-511`), with the callback's outcome
(`_GetCurrentControlSet()`) passed in as a value: when the upper-cased
path extends the virtual prefix, an unresolvable callback raises
`RuntimeError`; otherwise the virtual prefix (plus a following
separator, if any) is replaced by the resolved path. -/
def virtualSubstitute (ccsResult : Except PyErr (Option String))
    (key_path key_path_upper : String) : Except PyErr String :=
  if pyStartsWith key_path_upper (pyToUpper VIRTUAL_KEY_PATH) then do
    match ← ccsResult with
    | none =>
      throw (.runtimeError
        ("Unable to resolve virtual key: " ++ VIRTUAL_KEY_PATH ++ "."))
    | some resolved_key_path =>
      if resolved_key_path = "" then
        throw (.runtimeError
          ("Unable to resolve virtual key: " ++ VIRTUAL_KEY_PATH ++ "."))
      else
        let vlen := VIRTUAL_KEY_PATH.length
        let vlen :=
          if vlen < key_path.length ∧ key_path.data.get? vlen = some '\\' then
            vlen + 1
          else vlen
        pure (resolved_key_path ++ "\\" ++ pyDrop key_path vlen)
  else pure key_path

/-- `WinRegistry.GetKeyByPath` up to the backend delegation
(`dfwinreg/registry.py:476-514`), with the virtual callback's outcome
passed in as a value: returns the matched upper-cased prefix, its file,
and the relative key path handed to `registry_file.GetKeyByPath`, or
`none` when no backend file is available. -/
def dispatchWith (ccsResult : Except PyErr (Option String))
    (files : List (String × FakeRegFile)) (key_path0 : String) :
    Except PyErr (Option (String × FakeRegFile × String)) := do
  let key_path ← resolveRootAndJoin key_path0
  let key_path_upper := pyToUpper key_path
  match getCachedFileByPath files key_path_upper with
  | none => pure none
  | some (key_path_prefix_upper, registry_file) =>
    if pyStartsWith key_path_upper key_path_prefix_upper then do
      let key_path2 ← virtualSubstitute ccsResult key_path key_path_upper
      let rel := pyDrop key_path2 key_path_prefix_upper.length
      pure (some (key_path_prefix_upper, registry_file,
        if rel = "" then "\\" else rel))
    else throw (.runtimeError "Key path prefix mismatch.")

/-- The candidate loop of `WinRegistry._GetCurrentControlSet`
(`dfwinreg/registry.py:378-387`), threading the `control_set` binding:
a missing value or one whose type is not an integer type is skipped; a
present integer-typed value is decoded and the guard
`control_set > 0 or control_set <= 999` (which every `int` satisfies)
decides the break. -/
def controlSetLoop (select_key : FKey) (control_set : Option PyObj) :
    List String → Except PyErr (Option PyObj)
  | [] => pure control_set
  | value_name :: rest =>
    match select_key.getValueByName value_name with
    | none => controlSetLoop select_key control_set rest
    | some v =>
      if fvDataIsInteger v then do
        let cs ← GetDataAsObject v
        let b1 ← pyGtInt cs 0
        if b1 then pure (some cs)
        else do
          let b2 ← pyLeInt cs 999
          if b2 then pure (some cs)
          else controlSetLoop select_key (some cs) rest
      else controlSetLoop select_key control_set rest

/-- Python `'{0:03d}'.format(n)`: zero-pad to width 3 (sign included). -/
def pad3 (n : Int) : String :=
  let s := if n < 0 then toString (-n) else toString n
  let w : Nat := if n < 0 then 2 else 3
  let zeros : String := ⟨List.replicate (w - s.length) '0'⟩
  (if n < 0 then "-" else "") ++ zeros ++ s

/-- `WinRegistry._GetCurrentControlSet` (`dfwinreg/registry.py:362-392`),
parameterized by the `GetKeyByPath` function it calls for the `Select`
key: run the candidate loop, then discard a result that is falsy,
`<= 0` or `> 999`, and otherwise format the control-set path.  (The
final `match` arm models that `'{0:03d}'.format` of a non-`int` would
raise; the loop only ever binds `int` results here.) -/
def getCurrentControlSetWith
    (gkbp : String → Except PyErr (Option FKey)) :
    Except PyErr (Option String) := do
  match ← gkbp "HKEY_LOCAL_MACHINE\\System\\Select" with
  | none => pure none
  | some select_key => do
    let cs ← controlSetLoop select_key none ["Current", "Default", "LastKnownGood"]
    match cs with
    | none => pure none
    | some obj =>
      if pyTruthy obj then do
        let b1 ← pyLeInt obj 0
        if b1 then pure none
        else do
          let b2 ← pyGtInt obj 999
          if b2 then pure none
          else
            match obj with
            | .intObj n =>
              pure (some ("HKEY_LOCAL_MACHINE\\System\\ControlSet" ++ pad3 n))
            | _ => throw .typeError
      else pure none

/-- `WinRegistry.GetKeyByPath` (`dfwinreg/registry.py:464-515`), with a
fuel bound on the `GetKeyByPath` / `_GetCurrentControlSet` recursion:
dispatch to the backend file and delegate the relative path.  At fuel
`n + 1` the virtual callback runs `_GetCurrentControlSet` against the
fuel-`n` `GetKeyByPath`; at fuel `0` it reports `outOfFuel` (the real
recursion is depth 2: the `Select` path never matches the virtual
prefix). -/
def getKeyByPathFuel : Nat → RegState → String → Except PyErr (Option FKey)
  | fuel, st, key_path => do
    let ccsResult : Except PyErr (Option String) :=
      match fuel with
      | 0 => throw .outOfFuel
      | n + 1 => getCurrentControlSetWith (getKeyByPathFuel n st)
    match ← dispatchWith ccsResult st.files key_path with
    | none => pure none
    | some (_, registry_file, rel) => pure (fakeFileGetKeyByPath registry_file rel)

/-- The virtual callback outcome used by `getKeyByPathFuel` at a given
fuel, as a standalone definition. -/
def ccsCallback (fuel : Nat) (st : RegState) : Except PyErr (Option String) :=
  match fuel with
  | 0 => throw .outOfFuel
  | n + 1 => getCurrentControlSetWith (getKeyByPathFuel n st)

/-- `WinRegistry._GetCurrentControlSet` at a given fuel. -/
def getCurrentControlSetFuel (fuel : Nat) (st : RegState) :
    Except PyErr (Option String) :=
  getCurrentControlSetWith (getKeyByPathFuel fuel st)

/-- `WinRegistry.GetKeyByPath` up to the backend delegation, at a given
fuel (the observable dispatch: matched prefix, chosen file, relative
path). -/
def getKeyByPathDispatchFuel (fuel : Nat) (st : RegState) (key_path : String) :
    Except PyErr (Option (String × FakeRegFile × String)) :=
  dispatchWith (ccsCallback fuel st) st.files key_path

/-! ## `WinRegistry.GetRootKey` (`dfwinreg/registry.py:566-605`)

`WinRegistry.SplitKeyPath` (`dfwinreg/registry.py:617-628`) returns
`filter(None, key_path.split(KEY_PATH_SEPARATOR))` — in Python 3 this is
a lazy `filter` object, not a list.  `GetRootKey` then evaluates
`if not key_path_segments` (a `filter` object defines neither `__bool__`
nor `__len__`, so it is always truthy) and `key_path_segments[:-1]`
(a `filter` object does not implement `__getitem__`, so slicing raises
`TypeError`). -/

/-- A Python 3 `filter` object, as returned by `WinRegistry.SplitKeyPath`. -/
structure PyFilterObject where
  elements : List String
deriving Repr, DecidableEq

/-- `WinRegistry.SplitKeyPath` under Python 3. -/
def winRegSplitKeyPath (key_path : String) : PyFilterObject :=
  ⟨(pySplitOn key_path "\\").filter (fun s => s ≠ "")⟩

/-- `bool(filter_object)` is always `True`. -/
def pyFilterTruthy (_ : PyFilterObject) : Bool := true

/-- Subscripting or slicing a `filter` object raises `TypeError`. -/
def pyFilterSlice (_ : PyFilterObject) : Except PyErr (List String) :=
  throw .typeError

/-- `WinRegistry._MAPPED_KEYS`: the frozenset of the
`_REGISTRY_FILE_MAPPINGS_NT` key path prefixes
(`dfwinreg/registry.py:254-287`), listed in first-occurrence order.
(A frozenset iterates in an unspecified order; the lemma
`getRootKeyLoop_fails_on_cons` below shows the modelled loop fails
identically for every non-empty order.) -/
def MAPPED_KEYS : List String :=
  ["HKEY_CURRENT_USER", "HKEY_CURRENT_USER\\Software\\Classes",
   "HKEY_LOCAL_MACHINE\\SAM", "HKEY_LOCAL_MACHINE\\Security",
   "HKEY_LOCAL_MACHINE\\Software", "HKEY_LOCAL_MACHINE\\System"]

/-- The per-mapped-key loop of `WinRegistry.GetRootKey`
(`dfwinreg/registry.py:578-603`): split the mapped key, skip it when the
result is falsy (never, for a `filter` object), then iterate
`key_path_segments[:-1]` — which raises `TypeError` under Python 3
before any intermediate key is built.  The remainder of the loop body
(building `VirtualWinRegistryKey` children) is unreachable for every
input and is therefore not modelled. -/
def getRootKeyLoop : List String → Except PyErr Unit
  | [] => pure ()
  | mapped_key :: rest => do
    let key_path_segments := winRegSplitKeyPath mapped_key
    if pyFilterTruthy key_path_segments = false then getRootKeyLoop rest
    else do
      let _segments ← pyFilterSlice key_path_segments
      getRootKeyLoop rest

/-- `WinRegistry.GetRootKey`: create the synthetic root, then run the
mapped-keys loop.  (The created root itself is the `Unit` value: the
loop raises before the root gains any children.) -/
def winRegistryGetRootKey : Except PyErr Unit :=
  getRootKeyLoop MAPPED_KEYS

/-! ## `FindSpec` and `WinRegistrySearcher` (`dfwinreg/registry_searcher.py`) -/

/-- The compiled state of a `FindSpec`: `_is_regex` and
`_key_path_segments` (`None` when no path form was supplied). -/
structure FindSpecState where
  is_regex : Bool
  key_path_segments : Option (List String)
deriving Repr, DecidableEq

/-- `FindSpec.__init__` with a string `key_path`: segments are
`key_paths.SplitKeyPath(key_path)` (a positional call). -/
def findSpecInitKeyPathStr (key_path : String) : FindSpecState :=
  ⟨false, some (SplitKeyPath key_path)⟩

/-! ### `Glob2Regex` (`dfwinreg/glob2regex.py`) -/

/-- The tokenizer `_GLOB_GROUP_RE.findall` with pattern
`([^[]+|[[][^]]+[]]|[[])`: maximal runs of non-`'['` characters, bracket
expressions `[...]` (a `'['`, one or more non-`']'` characters, and a
`']'`), or a lone `'['`.  The fuel is the input length. -/
def globGroupsAux : Nat → List Char → List (List Char)
  | 0, _ => []
  | _, [] => []
  | fuel + 1, c :: rest =>
    if c ≠ '[' then
      let run := rest.takeWhile (fun x => x ≠ '[')
      (c :: run) :: globGroupsAux fuel (rest.drop run.length)
    else
      let inner := rest.takeWhile (fun x => x ≠ ']')
      if inner ≠ [] ∧ rest.drop inner.length ≠ [] then
        (('[' :: inner) ++ [']']) :: globGroupsAux fuel (rest.drop (inner.length + 1))
      else ['['] :: globGroupsAux fuel rest

/-- `_GLOB_GROUP_RE.findall(glob_pattern)`. -/
def globGroups (s : List Char) : List (List Char) :=
  globGroupsAux s.length s

/-- The characters escaped by `_ESCAPE_RE`: `. ^ $ + { } | ( ) ]`. -/
def REGEX_SPECIALS : List Char :=
  ['.', '^', '$', '+', '\x7b', '\x7d', '|', '(', ')', ']']

/-- Escape `'\'` as `'\\'` (the first transformation of every group). -/
def escapeBackslashes (cs : List Char) : List Char :=
  cs.flatMap (fun c => if c = '\\' then ['\\', '\\'] else [c])

/-- `_ESCAPE_RE.sub(r'\\\1', ...)`: prefix every special character with a
backslash. -/
def escapeSpecials (cs : List Char) : List Char :=
  cs.flatMap (fun c => if c ∈ REGEX_SPECIALS then ['\\', c] else [c])

/-- Replace `'*'` with `'.*'` and `'?'` with `'.'`. -/
def starQmark (cs : List Char) : List Char :=
  cs.flatMap (fun c =>
    if c = '*' then ['.', '*'] else if c = '?' then ['.'] else [c])

/-- The per-group transformation of `Glob2Regex`
(`dfwinreg/glob2regex.py:37-59`): escape backslashes; then an ordinary
run is regex-escaped and has its wildcards rewritten, a lone `'['` is
escaped, and a `'[!...'` bracket expression becomes `'[^...'`; any other
bracket expression passes through. -/
def globGroupTransform (g : List Char) : List Char :=
  let g := escapeBackslashes g
  match g with
  | [] => []
  | c :: rest =>
    if c ≠ '[' then starQmark (escapeSpecials (c :: rest))
    else if rest = [] then ['\\', '[']
    else
      match rest with
      | '!' :: rest2 => '[' :: '^' :: rest2
      | _ => c :: rest

/-- `glob2regex.Glob2Regex`: `ValueError` on an empty pattern, else the
concatenated transformed groups. -/
def Glob2Regex (glob_pattern : String) : Except PyErr String :=
  if glob_pattern.data = [] then throw .valueError
  else pure ⟨((globGroups glob_pattern.data).map globGroupTransform).flatten⟩

/-! ### `FindSpec.__init__` with a glob string -/

/-- The declared parameter names of `key_paths.SplitKeyPath`
(`src/dfwinreg/key_paths.py:36`): `key_path` and `path_seperator`
(spelled with `se`). -/
def SplitKeyPathParams : List String := ["key_path", "path_seperator"]

/-- The Python call `key_paths.SplitKeyPath(arg, path_separator='\\\\')`
made by `FindSpec.__init__` (`dfwinreg/registry_searcher.py:73-74`):
the keyword may bind the callee's second declared parameter by its name;
a keyword whose name is not a declared parameter (or duplicates the
positionally-bound first one) raises `TypeError`. -/
def callSplitKeyPathWithKeyword (arg kwName kwValue : String) :
    Except PyErr (List String) :=
  if kwName ∈ SplitKeyPathParams.drop 1 then pure (SplitKeyPathSep arg kwValue)
  else throw .typeError

/-- `FindSpec.__init__` with a string `key_path_glob`
(`dfwinreg/registry_searcher.py:64-74, 89`): run the glob through
`Glob2Regex`, undo the escaped forward slashes, and split the regex on
the escaped backslash via the keyword call above. -/
def findSpecInitGlobStr (key_path_glob : String) : Except PyErr FindSpecState := do
  let key_path_regex ← Glob2Regex key_path_glob
  let key_path_regex := pyReplace key_path_regex "\\/" "/"
  let segments ← callSplitKeyPathWithKeyword key_path_regex "path_separator" "\\\\"
  pure ⟨true, some segments⟩

/-- `WinRegistrySearcher.Find` (`dfwinreg/registry_searcher.py:388-404`):
default the find specifications, fetch `GetRootKey` from the registry,
and traverse.  `WinRegistry.GetRootKey` raises `TypeError` before
returning (see `getRootKeyLoop`), so the `_FindInKey` traversal over the
root's subkeys is unreachable from this entry point and is not modelled
beyond it. -/
def searcherFind (find_specs : List FindSpecState) : Except PyErr (List String) := do
  let _specs := if find_specs.isEmpty then [(⟨false, none⟩ : FindSpecState)] else find_specs
  let _root ← winRegistryGetRootKey
  pure []

/-! ## `VirtualWinRegistryKey` (`dfwinreg/virtual.py`)

The key's mutable state: the `registry` back-reference, the resolved
`_registry_key`, and the synthetic-subkey store (`_subkeys` list plus
`_subkeys_by_name` upper-cased-name-to-index dictionary).  The
`registry` object is embedded by the outcome of its single observable
use here, `registry.GetKeyByPath(JoinKeyPath([prefix, relative]))` for
this key's fixed path: it raises `RuntimeError`, returns `None`, or
returns a key. -/

/-- The outcome of the resolution rule (`registry.GetKeyByPath` at this
key's path). -/
inductive VResolver where
  | raisesRuntimeError
  | returnsNone
  | returnsKey (k : FKey)

/-- A subkey held by a `virtual.VirtualWinRegistryKey`: either a
synthetic child registered via `AddSubkey` before materialization
(identified by its name), or a backend key absorbed from the resolved
registry key. -/
inductive VChild where
  | syntheticChild (nm : String)
  | backendChild (k : FKey)

/-- The state of a `virtual.VirtualWinRegistryKey`.  (`AddSubkey` also
stamps the child's `_key_path_prefix`/`_relative_key_path`; the stamped
paths play no role in the properties below and are not carried.) -/
structure VState where
  vname : String
  key_path_prefix : String
  relative_key_path : String
  registry : Option VResolver
  registry_key : Option FKey
  subkeys : List VChild
  subkeys_by_name : List (String × Nat)

/-- `virtual.VirtualWinRegistryKey.AddSubkey`
(`dfwinreg/virtual.py:144-165`): `KeyError` when the upper-cased name is
already registered; otherwise record the index and append the child. -/
def vAddSubkey (vk : VState) (nm : String) (child : VChild) :
    Except PyErr VState :=
  if ((vk.subkeys_by_name.lookup (pyToUpper nm)).isSome : Bool) then
    throw .keyError
  else
    pure { vk with
      subkeys_by_name := vk.subkeys_by_name ++ [(pyToUpper nm, vk.subkeys.length)],
      subkeys := vk.subkeys ++ [child] }

/-- The absorption loop of `_GetKeyFromRegistry`
(`dfwinreg/virtual.py:113-114`): `AddSubkey(sub.name, sub)` for every
subkey of the resolved key, in iteration order. -/
def vAbsorb : VState → List FKey → Except PyErr VState
  | vk, [] => pure vk
  | vk, k :: rest => do
    let vk2 ← vAddSubkey vk k.keyName (.backendChild k)
    vAbsorb vk2 rest

/-- `virtual.VirtualWinRegistryKey._GetKeyFromRegistry`
(`dfwinreg/virtual.py:97-116`): without a `registry` back-reference,
return; otherwise query it (a `RuntimeError` is caught and leaves
`_registry_key` unchanged); if no key was resolved, return — leaving the
back-reference in place; on success absorb the resolved key's subkeys
and only then drop the back-reference. -/
def vGetKeyFromRegistry (vk : VState) : Except PyErr VState :=
  match vk.registry with
  | none => pure vk
  | some r =>
    let vk2 :=
      { vk with
        registry_key :=
          match r with
          | .raisesRuntimeError => vk.registry_key
          | .returnsNone => none
          | .returnsKey k => some k }
    match vk2.registry_key with
    | none => pure vk2
    | some resolved => do
      let vk3 ← vAbsorb vk2 resolved.subkeysList
      pure { vk3 with registry := none }

/-- The materialization guard every read accessor runs first
(`if not self._registry_key and self._registry:
self._GetKeyFromRegistry()`). -/
def vMaterialize (vk : VState) : Except PyErr VState :=
  if vk.registry_key.isNone ∧ vk.registry.isSome then vGetKeyFromRegistry vk
  else pure vk

/-- Whether a read accessor on this state would invoke the resolution
rule (call `registry.GetKeyByPath`): exactly the materialization guard. -/
def vMaterializeInvokes (vk : VState) : Bool :=
  vk.registry_key.isNone && vk.registry.isSome

/-- `virtual.VirtualWinRegistryKey.number_of_subkeys`
(`dfwinreg/virtual.py:67-73`): materialize, then `len(self._subkeys)`.
The result pairs the post-accessor state with the returned count. -/
def vNumberOfSubkeys (vk : VState) : Except PyErr (VState × Nat) := do
  let vk2 ← vMaterialize vk
  pure (vk2, vk2.subkeys.length)

/-- `virtual.VirtualWinRegistryKey.GetSubkeyByName`
(`dfwinreg/virtual.py:187-203`): materialize, look the upper-cased name
up in `_subkeys_by_name`, and index `_subkeys` (an out-of-range index
would raise `IndexError`; the store keeps indices in range). -/
def vGetSubkeyByName (vk : VState) (nm : String) :
    Except PyErr (VState × Option VChild) := do
  let vk2 ← vMaterialize vk
  match vk2.subkeys_by_name.lookup (pyToUpper nm) with
  | none => pure (vk2, none)
  | some i =>
    match vk2.subkeys[i]? with
    | some child => pure (vk2, some child)
    | none => throw .indexError

/-! ## The `VirtualWinRegistryKey` class private to `dfwinreg/registry.py`
(`dfwinreg/registry.py:9-211`)

Its `_GetKeyFromRegistry` (`dfwinreg/registry.py:74-82`) differs from the
`dfwinreg/virtual.py` one: the `self._registry = None` assignment sits
outside the `try` block and runs unconditionally, so the back-reference
is dropped whether or not resolution produced a key. -/

/-- The resolution-relevant state of a `registry.VirtualWinRegistryKey`. -/
structure OVState where
  registry : Option VResolver
  registry_key : Option FKey

/-- `registry.VirtualWinRegistryKey._GetKeyFromRegistry`: query the
back-reference (catching `RuntimeError`), then drop it unconditionally. -/
def oGetKeyFromRegistry (vk : OVState) : OVState :=
  match vk.registry with
  | none => vk
  | some r =>
    { registry := none,
      registry_key :=
        match r with
        | .raisesRuntimeError => vk.registry_key
        | .returnsNone => none
        | .returnsKey k => some k }

/-! ## Concrete fixtures

Registry states as produced by `WinRegistry.MapFile('HKEY_LOCAL_MACHINE\\System', f)`:
the table holds the upper-cased prefix, and the file's own prefix was set
by `SetKeyPathPrefix`. -/

/-- A registry state with a single file mapped at
`HKEY_LOCAL_MACHINE\System`. -/
def regStateWith (f : FakeRegFile) : RegState :=
  ⟨[("HKEY_LOCAL_MACHINE\\SYSTEM", f)]⟩

/-- A `Select` key whose `Current` value is the `REG_DWORD` 0 and whose
`Default` value is the `REG_DWORD` 1. -/
def selectKeyZero : FKey :=
  .mk "Select" []
    [("CURRENT", ⟨"Current", [0, 0, 0, 0], REG_DWORD⟩),
     ("DEFAULT", ⟨"Default", [1, 0, 0, 0], REG_DWORD⟩)]

/-- A SYSTEM file containing `Select` with `Current = 0`, `Default = 1`. -/
def systemFileZero : FakeRegFile :=
  ⟨"HKEY_LOCAL_MACHINE\\System", some (.mk "HKEY_LOCAL_MACHINE\\System" [("SELECT", selectKeyZero)] [])⟩

/-- A SYSTEM file with no `Select` key at all. -/
def systemFileEmpty : FakeRegFile :=
  ⟨"HKEY_LOCAL_MACHINE\\System", some (.mk "HKEY_LOCAL_MACHINE\\System" [] [])⟩

/-- A fresh `virtual.VirtualWinRegistryKey` for the current-control-set
region whose resolution rule reports absence (`GetKeyByPath` returns
`None`). -/
def vkUnresolvable : VState :=
  { vname := "CurrentControlSet",
    key_path_prefix := "",
    relative_key_path := "HKEY_LOCAL_MACHINE\\System\\CurrentControlSet",
    registry := some .returnsNone,
    registry_key := none,
    subkeys := [],
    subkeys_by_name := [] }

/-- A backend key named `System` with one subkey named `Foo`. -/
def backendKeyFoo : FKey :=
  .mk "System" [("FOO", .mk "Foo" [] [])] []

/-- A `virtual.VirtualWinRegistryKey` that already holds a synthetic
child named `Foo` and whose resolution rule succeeds with
`backendKeyFoo` (whose subkey is also named `Foo`). -/
def vkCollision : VState :=
  { vname := "System",
    key_path_prefix := "",
    relative_key_path := "HKEY_LOCAL_MACHINE\\System",
    registry := some (.returnsKey backendKeyFoo),
    registry_key := none,
    subkeys := [.syntheticChild "Foo"],
    subkeys_by_name := [("FOO", 0)] }

/-- A backend key named `System` with one subkey named `Bar` (no name
collision with the synthetic child `Foo`). -/
def backendKeyBar : FKey :=
  .mk "System" [("BAR", .mk "Bar" [] [])] []

/-- `vkCollision` with the collision-free backend `backendKeyBar`
instead. -/
def vkPreserve : VState :=
  { vkCollision with registry := some (.returnsKey backendKeyBar) }

/-! # Theorems -/

/-! ## Key path algebra (`key_paths.JoinKeyPath`) -/

/-- Python `str.split` never returns an empty list. -/
theorem splitOnChar_ne_nil (sep : Char) (s : List Char) : splitOnChar sep s ≠ [] := by
  induction s with
  | nil => simp [splitOnChar]
  | cons c rest ih =>
    simp only [splitOnChar]
    by_cases h : c = sep
    · simp [h]
    · simp only [if_neg h]
      cases hr : splitOnChar sep rest with
      | nil => simp
      | cons hd tl => simp

/-- No piece produced by `splitOnChar` contains the separator. -/
theorem splitOnChar_not_mem (sep : Char) (s : List Char) :
    ∀ p ∈ splitOnChar sep s, sep ∉ p := by
  induction s with
  | nil =>
    intro p hp
    simp [splitOnChar] at hp
    simp [hp]
  | cons c rest ih =>
    intro p hp
    simp only [splitOnChar] at hp
    by_cases h : c = sep
    · rw [if_pos h] at hp
      rcases List.mem_cons.mp hp with h1 | h1
      · simp [h1]
      · exact ih p h1
    · rw [if_neg h] at hp
      cases hr : splitOnChar sep rest with
      | nil => exact absurd hr (splitOnChar_ne_nil sep rest)
      | cons hd tl =>
        rw [hr] at hp
        rcases List.mem_cons.mp hp with h1 | h1
        · subst h1
          intro hmem
          rcases List.mem_cons.mp hmem with h2 | h2
          · exact h h2.symm
          · exact ih hd (hr ▸ List.mem_cons_self hd tl) h2
        · exact ih p (hr ▸ List.mem_cons_of_mem hd h1)

/-- Splitting a separator-free list is the identity (one piece). -/
theorem splitOnChar_sep_free (sep : Char) (x : List Char) (h : sep ∉ x) :
    splitOnChar sep x = [x] := by
  induction x with
  | nil => simp [splitOnChar]
  | cons c rest ih =>
    have hc : c ≠ sep := fun hc => h (hc ▸ List.mem_cons_self c rest)
    have hrest : sep ∉ rest := fun hm => h (List.mem_cons_of_mem c hm)
    simp only [splitOnChar, if_neg hc, ih hrest]

/-- Splitting past a separator-free head piece. -/
theorem splitOnChar_append (sep : Char) (x rest : List Char) (h : sep ∉ x) :
    splitOnChar sep (x ++ sep :: rest) = x :: splitOnChar sep rest := by
  induction x with
  | nil => simp [splitOnChar]
  | cons c x2 ih =>
    have hc : c ≠ sep := fun hc => h (hc ▸ List.mem_cons_self c x2)
    have hx2 : sep ∉ x2 := fun hm => h (List.mem_cons_of_mem c hm)
    simp only [List.cons_append, splitOnChar, if_neg hc, List.append_eq, ih hx2]

/-- Splitting undoes joining for non-empty separator-free pieces. -/
theorem splitOnChar_joinSep (sep : Char) (pieces : List (List Char))
    (hne : pieces ≠ []) (hfree : ∀ p ∈ pieces, sep ∉ p) :
    splitOnChar sep (joinSep sep pieces) = pieces := by
  induction pieces with
  | nil => exact absurd rfl hne
  | cons x xs ih =>
    cases xs with
    | nil =>
      simp only [joinSep]
      exact splitOnChar_sep_free sep x (hfree x (List.mem_cons_self x []))
    | cons y ys =>
      have hx : sep ∉ x := hfree x (List.mem_cons_self x (y :: ys))
      have hrest : ∀ p ∈ y :: ys, sep ∉ p := fun p hp =>
        hfree p (List.mem_cons_of_mem x hp)
      simp only [joinSep, splitOnChar_append sep x _ hx,
        ih (by simp) hrest]

/-- Idempotence of `JoinKeyPath` at the character level. -/
theorem JoinKeyPathChars_idem (segs : List (List Char)) :
    JoinKeyPathChars [JoinKeyPathChars segs] = JoinKeyPathChars segs := by
  have hfree : ∀ p ∈ ((segs.map (splitOnChar KEY_PATH_SEPARATOR)).flatten).filter
      (fun piece => piece ≠ []), KEY_PATH_SEPARATOR ∉ p := by
    intro p hp
    have hp2 := List.mem_of_mem_filter hp
    rcases List.mem_flatten.mp hp2 with ⟨l, hl, hpl⟩
    rcases List.mem_map.mp hl with ⟨seg, _, rfl⟩
    exact splitOnChar_not_mem _ seg p hpl
  have hne : ∀ p ∈ ((segs.map (splitOnChar KEY_PATH_SEPARATOR)).flatten).filter
      (fun piece => piece ≠ []), p ≠ [] := by
    intro p hp
    simpa using (List.mem_filter.mp hp).2
  conv_lhs => rw [JoinKeyPathChars]
  rw [JoinKeyPathChars]
  set pieces := ((segs.map (splitOnChar KEY_PATH_SEPARATOR)).flatten).filter
      (fun piece => piece ≠ []) with hpieces
  simp only [List.map_cons, List.map_nil, List.flatten_cons, List.flatten_nil,
    List.append_nil]
  cases hp : pieces with
  | nil =>
    simp only [hp, joinSep]
  | cons q qs =>
    have hsplit : splitOnChar KEY_PATH_SEPARATOR
        (joinSep KEY_PATH_SEPARATOR pieces) = pieces :=
      splitOnChar_joinSep _ _ (by rw [hp]; simp) hfree
    have hfilter : pieces.filter (fun piece => piece ≠ []) = pieces := by
      apply List.filter_eq_self.mpr
      intro a ha
      simpa using hne a ha
    cases hpref : HKEY_PREFIX.isPrefixOf (joinSep KEY_PATH_SEPARATOR pieces) with
    | true =>
      rw [← hp]
      have hpref2 : HKEY_PREFIX <+: joinSep KEY_PATH_SEPARATOR pieces := by
        simpa using hpref
      have hfilter2 : pieces.filter (fun piece => !decide (piece = [])) = pieces := by
        simpa using hfilter
      simp [hpref, hsplit, hfilter2, hpref2]
    | false =>
      rw [← hp]
      have hpref2 : ¬ HKEY_PREFIX <+: joinSep KEY_PATH_SEPARATOR pieces := by
        rw [← List.isPrefixOf_iff_prefix]
        simp [hpref]
      have hfilter2 : pieces.filter (fun piece => !decide (piece = [])) = pieces := by
        simpa using hfilter
      have hstep : splitOnChar KEY_PATH_SEPARATOR
          (KEY_PATH_SEPARATOR :: joinSep KEY_PATH_SEPARATOR pieces)
          = [] :: splitOnChar KEY_PATH_SEPARATOR (joinSep KEY_PATH_SEPARATOR pieces) := by
        simp [splitOnChar]
      simp [hpref, hstep, hsplit, hfilter2, hpref2]

/-- Claim C8: for every sequence of path-segment strings `s`, joining is
idempotent: `JoinKeyPath([JoinKeyPath(s)])` equals `JoinKeyPath(s)`. -/
theorem C8_join_key_path_idempotent (s : List String) :
    JoinKeyPath [JoinKeyPath s] = JoinKeyPath s :=
  congrArg String.mk (JoinKeyPathChars_idem (s.map String.data))

/-- Claim C8, instantiated: idempotence at a concrete segment list. -/
theorem C8_join_key_path_idempotent_witness :
    JoinKeyPath [JoinKeyPath ["foo\\bar", "", "baz"]]
      = JoinKeyPath ["foo\\bar", "", "baz"] :=
  C8_join_key_path_idempotent ["foo\\bar", "", "baz"]

/-! ## The current-control-set resolver (`WinRegistry._GetCurrentControlSet`) -/

/-- Claim C1: with `Select` readable and `Current = 0`, `Default = 1`
(both `REG_DWORD`), the resolver reports the region unresolvable
(`None`) instead of falling through to `Default` and resolving
`ControlSet001`: the break guard `control_set > 0 or control_set <= 999`
holds for every integer, so the candidate loop stops at `Current = 0`
and the final range check then discards the zero.  This contradicts the
claim, the spec, and the source's own comment ("If the control set is 0
then we need to check the other values"). -/
theorem C1_current_zero_reports_unresolvable :
    getCurrentControlSetFuel 1 (regStateWith systemFileZero) = .ok none := rfl

/-! ## `WinRegistry.GetKeyByPath` on the virtual region -/

/-- Claim C2, counterexample: with a SYSTEM backend mapped but no
`Select` key, `GetKeyByPath` on the virtual region raises
`RuntimeError` — it does not return `None`. -/
theorem C2_counterexample_unresolvable_region_raises :
    getKeyByPathFuel 2 (regStateWith systemFileEmpty)
      "HKEY_LOCAL_MACHINE\\System\\CurrentControlSet"
    = .error (.runtimeError
        "Unable to resolve virtual key: HKEY_LOCAL_MACHINE\\System\\CurrentControlSet.") := rfl

/-- Unfolding of `getKeyByPathFuel` at a successor fuel. -/
theorem getKeyByPathFuel_succ (fuel : Nat) (st : RegState) (key_path : String) :
    getKeyByPathFuel (fuel + 1) st key_path = (do
      match ← dispatchWith (getCurrentControlSetWith (getKeyByPathFuel fuel st))
          st.files key_path with
      | none => pure none
      | some (_, registry_file, rel) =>
        pure (fakeFileGetKeyByPath registry_file rel)) := rfl

/-- Claim C2, amended: for every SYSTEM backend mapped at
`HKEY_LOCAL_MACHINE\System` whose current-control-set resolver reports
the region unresolvable, `GetKeyByPath` on a path inside the virtual
region raises `RuntimeError` (callers such as
`VirtualWinRegistryKey._GetKeyFromRegistry` catch it and degrade to
absence); `None` is returned only when no backend file is available at
all. -/
theorem C2_unresolvable_virtual_region_raises (f : FakeRegFile) (fuel : Nat)
    (h : getCurrentControlSetFuel fuel (regStateWith f) = .ok none) :
    getKeyByPathFuel (fuel + 1) (regStateWith f)
      "HKEY_LOCAL_MACHINE\\System\\CurrentControlSet"
    = .error (.runtimeError
        "Unable to resolve virtual key: HKEY_LOCAL_MACHINE\\System\\CurrentControlSet.") := by
  rw [getKeyByPathFuel_succ]
  rw [show getCurrentControlSetWith (getKeyByPathFuel fuel (regStateWith f))
      = Except.ok none from h]
  rfl

/-- Claim C2, witness: the amended theorem applied to the mapped SYSTEM
file without a `Select` key. -/
theorem C2_unresolvable_virtual_region_raises_witness :
    getCurrentControlSetFuel 1 (regStateWith systemFileEmpty) = .ok none
    ∧ getKeyByPathFuel 2 (regStateWith systemFileEmpty)
        "HKEY_LOCAL_MACHINE\\System\\CurrentControlSet"
      = .error (.runtimeError
          "Unable to resolve virtual key: HKEY_LOCAL_MACHINE\\System\\CurrentControlSet.") :=
  ⟨rfl, C2_unresolvable_virtual_region_raises systemFileEmpty 1 rfl⟩

/-! ## `WinRegistry.GetRootKey` and `WinRegistrySearcher.Find` -/

/-- The per-mapped-key loop of `GetRootKey` raises `TypeError` for every
non-empty iteration order of the mapped keys: the first iteration slices
the `filter` object returned by `WinRegistry.SplitKeyPath`. -/
theorem getRootKeyLoop_fails_on_cons (mapped_key : String) (rest : List String) :
    getRootKeyLoop (mapped_key :: rest) = .error .typeError := rfl

/-- Claim C3: `WinRegistry.GetRootKey` does not build the synthetic root
described by the claim — it raises `TypeError` on the first mapped key
(`key_path_segments[:-1]` on a Python 3 `filter` object), before any
child is created. -/
theorem C3_get_root_key_raises_type_error :
    winRegistryGetRootKey = .error .typeError := rfl

/-- Claim C4: constructing a `FindSpec` from a glob string raises
`TypeError` instead of succeeding: `FindSpec.__init__` calls
`key_paths.SplitKeyPath(regex, path_separator='\\\\')` but the declared
parameter of `SplitKeyPath` is spelled `path_seperator`, so the keyword
does not bind. -/
theorem C4_glob_find_spec_raises_type_error :
    findSpecInitGlobStr "HKEY_LOCAL_MACHINE\\System\\ControlSet001\\*"
      = .error .typeError := rfl

/-- Claim C9: a search with a single literal-path `FindSpec` for
`HKEY_LOCAL_MACHINE\System\ControlSet001` yields no paths at all:
`WinRegistrySearcher.Find` raises `TypeError` inside
`WinRegistry.GetRootKey` before the traversal starts. -/
theorem C9_find_raises_type_error :
    searcherFind [findSpecInitKeyPathStr "HKEY_LOCAL_MACHINE\\System\\ControlSet001"]
      = .error .typeError := rfl

/-! ## `virtual.VirtualWinRegistryKey` materialization (claims C5, C6) -/

/-- Claim C5, counterexample: for a virtual key whose resolution rule
reports absence, the first read accessor (`number_of_subkeys`) leaves
the state unchanged — in particular the `registry` back-reference is
not dropped — and a later read accessor invokes the resolution rule
again (`vMaterializeInvokes` still holds of the post-accessor state). -/
theorem C5_counterexample_failed_resolution_is_retried :
    vNumberOfSubkeys vkUnresolvable = .ok (vkUnresolvable, 0)
      ∧ vMaterializeInvokes vkUnresolvable = true := ⟨rfl, rfl⟩

/-- Claim C5, amended: materialization of
`virtual.VirtualWinRegistryKey` is memoized only on success.  When the
rule returns a key, the back-reference is dropped and no later accessor
re-invokes the rule; when it returns `None` or raises `RuntimeError`,
the back-reference survives and the next read accessor re-invokes the
rule.  The `VirtualWinRegistryKey` private to `dfwinreg/registry.py`
drops the back-reference after the first attempt unconditionally. -/
theorem C5_memoized_only_on_success :
    (∀ vk : VState, vk.registry_key = none →
      ((∀ k : FKey, vk.registry = some (.returnsKey k) →
          ∀ vk2 : VState, vGetKeyFromRegistry vk = .ok vk2 →
            vk2.registry = none ∧ vMaterializeInvokes vk2 = false)
        ∧ (vk.registry = some .returnsNone →
            vGetKeyFromRegistry vk = .ok { vk with registry_key := none }
              ∧ vMaterializeInvokes { vk with registry_key := none } = true)
        ∧ (vk.registry = some .raisesRuntimeError →
            vGetKeyFromRegistry vk = .ok vk
              ∧ vMaterializeInvokes vk = true)))
    ∧ (∀ ovk : OVState, (oGetKeyFromRegistry ovk).registry = none) := by
  constructor
  · intro vk hrk
    refine ⟨?_, ?_, ?_⟩
    · intro k hreg vk2 hrun
      unfold vGetKeyFromRegistry at hrun
      rw [hreg] at hrun
      dsimp only at hrun
      cases habs : vAbsorb
          { vk with registry := some (VResolver.returnsKey k), registry_key := some k }
          k.subkeysList with
      | error e =>
        rw [habs] at hrun
        exact absurd hrun (by simp [Except.bind])
      | ok w =>
        rw [habs] at hrun
        have hrun2 : (Except.ok { w with registry := none } : Except PyErr VState)
            = Except.ok vk2 := hrun
        injection hrun2 with h2
        subst h2
        exact ⟨rfl, by simp [vMaterializeInvokes]⟩
    · intro hreg
      unfold vGetKeyFromRegistry
      rw [hreg]
      exact ⟨rfl, by simp [vMaterializeInvokes, hreg]⟩
    · intro hreg
      refine ⟨?_, by simp [vMaterializeInvokes, hrk, hreg]⟩
      unfold vGetKeyFromRegistry
      rw [hreg]
      have hv :
          ({ vk with registry := some VResolver.raisesRuntimeError, registry_key := none } : VState) = vk := by
        cases vk
        simp_all
      dsimp only
      rw [hrk]
      dsimp only
      rw [hv]
      rfl
  · intro ovk
    unfold oGetKeyFromRegistry
    cases h : ovk.registry with
    | none => exact h
    | some r => rfl

/-- Claim C5, witness: the amended theorem applied to the concrete
unresolvable key and a concrete old-style key. -/
theorem C5_memoized_only_on_success_witness :
    vkUnresolvable.registry_key = none
    ∧ (vGetKeyFromRegistry vkUnresolvable = .ok vkUnresolvable
        ∧ vMaterializeInvokes vkUnresolvable = true)
    ∧ (oGetKeyFromRegistry ⟨some .returnsNone, none⟩).registry = none := by
  refine ⟨rfl, ?_, C5_memoized_only_on_success.2 ⟨some .returnsNone, none⟩⟩
  exact (C5_memoized_only_on_success.1 vkUnresolvable rfl).2.1 rfl

/-- Claim C6, counterexample: a virtual key with a synthetic child `Foo`
whose resolution rule succeeds with a backend key that also has a subkey
named `Foo` — the read accessor raises `KeyError` during absorption
instead of returning the synthetic child. -/
theorem C6_counterexample_collision_raises_key_error :
    vGetSubkeyByName vkCollision "Foo" = .error .keyError := rfl

/-- `List.lookup` ignores appended entries when the key hits the left
part. -/
theorem lookup_append_left {β : Type} (l1 l2 : List (String × β)) (k : String)
    {v : β} (h : l1.lookup k = some v) : (l1 ++ l2).lookup k = some v := by
  induction l1 with
  | nil => simp [List.lookup] at h
  | cons e es ih =>
    rw [List.cons_append]
    simp only [List.lookup] at h ⊢
    cases he : (k == e.1) with
    | true => rw [he] at h; exact h
    | false => rw [he] at h; exact ih h

/-- `List.lookup` falls through appended entries when the key misses the
left part. -/
theorem lookup_append_none {β : Type} (l1 l2 : List (String × β)) (k : String)
    (h : l1.lookup k = none) : (l1 ++ l2).lookup k = l2.lookup k := by
  induction l1 with
  | nil => simp
  | cons e es ih =>
    rw [List.cons_append]
    simp only [List.lookup] at h ⊢
    cases he : (k == e.1) with
    | true => rw [he] at h; exact absurd h (by simp)
    | false => rw [he] at h; exact ih h

/-- The absorption loop only appends: when every absorbed name is new
(case-insensitively) and the absorbed names are pairwise distinct, the
loop succeeds and extends the subkey store on the right. -/
theorem vAbsorb_extends (l : List FKey) : ∀ vk : VState,
    (∀ k ∈ l, vk.subkeys_by_name.lookup (pyToUpper k.keyName) = none) →
    ((l.map (fun k => pyToUpper k.keyName)).Nodup) →
    ∃ N C, vAbsorb vk l
      = .ok { vk with subkeys_by_name := vk.subkeys_by_name ++ N,
                      subkeys := vk.subkeys ++ C } := by
  induction l with
  | nil =>
    intro vk _ _
    refine ⟨[], [], ?_⟩
    have hv :
        ({ vk with subkeys_by_name := vk.subkeys_by_name ++ [], subkeys := vk.subkeys ++ [] } : VState)
          = vk := by
      cases vk
      simp
    rw [hv]
    rfl
  | cons k rest ih =>
    intro vk hnone hnodup
    have hk : vk.subkeys_by_name.lookup (pyToUpper k.keyName) = none :=
      hnone k (List.mem_cons_self k rest)
    have hstep : vAddSubkey vk k.keyName (.backendChild k)
        = .ok { vk with
            subkeys_by_name :=
              vk.subkeys_by_name ++ [(pyToUpper k.keyName, vk.subkeys.length)],
            subkeys := vk.subkeys ++ [.backendChild k] } := by
      unfold vAddSubkey
      rw [hk]
      rfl
    have hrest : ∀ k2 ∈ rest,
        (vk.subkeys_by_name
          ++ [(pyToUpper k.keyName, vk.subkeys.length)]).lookup (pyToUpper k2.keyName)
        = none := by
      intro k2 hk2
      rw [lookup_append_none _ _ _ (hnone k2 (List.mem_cons_of_mem k hk2))]
      have hne : pyToUpper k2.keyName ≠ pyToUpper k.keyName := by
        intro he
        have hnotin := (List.nodup_cons.mp hnodup).1
        apply hnotin
        show pyToUpper k.keyName ∈ List.map (fun x => pyToUpper x.keyName) rest
        rw [← he]
        exact List.mem_map.mpr ⟨k2, hk2, rfl⟩
      have hb : (pyToUpper k2.keyName == pyToUpper k.keyName) = false :=
        beq_eq_false_iff_ne.mpr hne
      simp [List.lookup, hb]
    obtain ⟨N, C, hN⟩ := ih
      { vk with
        subkeys_by_name :=
          vk.subkeys_by_name ++ [(pyToUpper k.keyName, vk.subkeys.length)],
        subkeys := vk.subkeys ++ [.backendChild k] }
      hrest (List.nodup_cons.mp hnodup).2
    refine ⟨(pyToUpper k.keyName, vk.subkeys.length) :: N, .backendChild k :: C, ?_⟩
    have hbind : vAbsorb vk (k :: rest)
        = (do
            let vk2 ← vAddSubkey vk k.keyName (.backendChild k)
            vAbsorb vk2 rest) := rfl
    rw [hbind, hstep]
    show vAbsorb
        { vk with
          subkeys_by_name :=
            vk.subkeys_by_name ++ [(pyToUpper k.keyName, vk.subkeys.length)],
          subkeys := vk.subkeys ++ [.backendChild k] } rest = _
    rw [hN]
    congr 1
    cases vk
    simp

/-- Claim C6, amended: when the backend subkey names are
case-insensitively disjoint from the already-registered synthetic
children (and pairwise distinct), a read accessor after a successful
resolution absorbs the backend subkeys behind the synthetic children and
still returns the previously-added synthetic child for its name, without
error; a backend subkey whose name collides with a synthetic child
instead makes the accessor raise `KeyError`
(`C6_counterexample_collision_raises_key_error`). -/
theorem C6_disjoint_absorption_preserves_synthetic_children
    (vk : VState) (bk : FKey) (n cn : String) (i : Nat)
    (hrk : vk.registry_key = none)
    (hreg : vk.registry = some (.returnsKey bk))
    (hlook : vk.subkeys_by_name.lookup (pyToUpper n) = some i)
    (hchild : vk.subkeys[i]? = some (.syntheticChild cn))
    (hdisj : ∀ k ∈ bk.subkeysList,
      vk.subkeys_by_name.lookup (pyToUpper k.keyName) = none)
    (hnodup : (bk.subkeysList.map (fun k => pyToUpper k.keyName)).Nodup) :
    ∃ vk2 : VState,
      vGetSubkeyByName vk n = .ok (vk2, some (.syntheticChild cn)) := by
  obtain ⟨N, C, hN⟩ := vAbsorb_extends bk.subkeysList
    { vk with registry := some (VResolver.returnsKey bk), registry_key := some bk }
    hdisj hnodup
  dsimp only at hN
  have hi : i < vk.subkeys.length := by
    rcases List.getElem?_eq_some.mp hchild with ⟨h, _⟩
    exact h
  refine ⟨{ vk with registry := none, registry_key := some bk, subkeys := vk.subkeys ++ C, subkeys_by_name := vk.subkeys_by_name ++ N }, ?_⟩
  unfold vGetSubkeyByName vMaterialize
  rw [hrk, hreg]
  rw [if_pos ⟨rfl, rfl⟩]
  unfold vGetKeyFromRegistry
  rw [hreg]
  dsimp only
  rw [hN]
  simp only [bind, Except.bind, pure, Except.pure]
  rw [lookup_append_left _ _ _ hlook]
  dsimp only
  rw [List.getElem?_append_left hi, hchild]

/-- Claim C6, witness: the amended theorem applied to a key with
synthetic child `Foo` and a backend whose only subkey is `Bar`. -/
theorem C6_disjoint_absorption_witness :
    ∃ vk2 : VState,
      vGetSubkeyByName vkPreserve "Foo" = .ok (vk2, some (.syntheticChild "Foo")) :=
  C6_disjoint_absorption_preserves_synthetic_children vkPreserve backendKeyBar
    "Foo" "Foo" 0 rfl rfl rfl rfl
    (by
      intro k hk
      rcases List.mem_singleton.mp hk with rfl
      rfl)
    (by decide)

/-! ## `FakeWinRegistryValue.GetDataAsObject` (claim C7) -/

/-- Claim C7, counterexample: a `REG_DWORD` value whose data is three
bytes long does not fail with a decode error — `GetDataAsObject` returns
the raw bytes unchanged. -/
theorem C7_counterexample_short_dword_returns_raw_bytes :
    GetDataAsObject ⟨"Count", [1, 2, 3], REG_DWORD⟩ = .ok (.bytesObj [1, 2, 3]) := rfl

/-- Claim C7, amended: an integer-typed value (`REG_DWORD`,
`REG_DWORD_BIG_ENDIAN`, `REG_QWORD`) whose non-empty data differs in
length from the type's fixed width is not decoded and does not raise:
`GetDataAsObject` returns the raw data unchanged (and empty data yields
`None`); decode errors arise only for the string and multi-string
types. -/
theorem C7_integer_size_mismatch_returns_raw_data (v : FakeValue)
    (hdata : v.data ≠ [])
    (h : (v.data_type = REG_DWORD ∧ v.data.length ≠ 4)
       ∨ (v.data_type = REG_DWORD_BIG_ENDIAN ∧ v.data.length ≠ 4)
       ∨ (v.data_type = REG_QWORD ∧ v.data.length ≠ 8)) :
    GetDataAsObject v = .ok (.bytesObj v.data) := by
  unfold GetDataAsObject
  rcases h with ⟨ht, hl⟩ | ⟨ht, hl⟩ | ⟨ht, hl⟩ <;>
    simp [hdata, ht, hl, REG_SZ, REG_EXPAND_SZ, REG_LINK, REG_DWORD,
      REG_DWORD_BIG_ENDIAN, REG_QWORD, REG_MULTI_SZ] <;>
    rfl

/-- Claim C7, witness: the amended theorem applied to the three-byte
`REG_DWORD` value. -/
theorem C7_integer_size_mismatch_witness :
    ((⟨"Count", [1, 2, 3], REG_DWORD⟩ : FakeValue).data ≠ [])
    ∧ GetDataAsObject ⟨"Count", [1, 2, 3], REG_DWORD⟩ = .ok (.bytesObj [1, 2, 3]) :=
  ⟨by decide, C7_integer_size_mismatch_returns_raw_data ⟨"Count", [1, 2, 3], REG_DWORD⟩
    (by decide) (Or.inl ⟨rfl, by decide⟩)⟩

/-! ## Longest-prefix backend lookup (claim C10) -/

/-- Claim C10: backend lookup is a plain upper-cased `startswith` test,
not a path-segment-aligned prefix match.  With a backend mapped at
`HKEY_LOCAL_MACHINE\System`: (a) every requested path whose upper-cased
text merely extends the mapped prefix — no separator required — selects
that backend in `_GetCachedFileByPath`; (b) in particular
`GetKeyByPath('HKEY_LOCAL_MACHINE\SystemX')` dispatches to that backend
and delegates the textual remainder `'X'` as the relative key path,
rather than treating the path as unmapped. -/
theorem C10_prefix_match_is_textual (f : FakeRegFile) (u : String)
    (h : pyStartsWith u "HKEY_LOCAL_MACHINE\\SYSTEM" = true) :
    getCachedFileByPath [("HKEY_LOCAL_MACHINE\\SYSTEM", f)] u
      = some ("HKEY_LOCAL_MACHINE\\SYSTEM", f)
    ∧ getKeyByPathDispatchFuel 1 (regStateWith f) "HKEY_LOCAL_MACHINE\\SystemX"
      = .ok (some ("HKEY_LOCAL_MACHINE\\SYSTEM", f, "X")) := by
  refine ⟨?_, rfl⟩
  unfold getCachedFileByPath
  simp only [List.foldl_cons, List.foldl_nil]
  have hcond : (pyStartsWith u "HKEY_LOCAL_MACHINE\\SYSTEM" = true)
      ∧ (("" : String).length < ("HKEY_LOCAL_MACHINE\\SYSTEM" : String).length) :=
    ⟨h, by decide⟩
  rw [if_pos hcond, if_neg (by decide : ¬ ("HKEY_LOCAL_MACHINE\\SYSTEM" : String) = "")]
  simp [List.lookup]

/-- Claim C10, witness: the theorem applied to the mapped SYSTEM file
and the request `HKEY_LOCAL_MACHINE\SYSTEMX`. -/
theorem C10_prefix_match_is_textual_witness :
    pyStartsWith "HKEY_LOCAL_MACHINE\\SYSTEMX" "HKEY_LOCAL_MACHINE\\SYSTEM" = true
    ∧ (getCachedFileByPath [("HKEY_LOCAL_MACHINE\\SYSTEM", systemFileEmpty)]
          "HKEY_LOCAL_MACHINE\\SYSTEMX"
        = some ("HKEY_LOCAL_MACHINE\\SYSTEM", systemFileEmpty)
      ∧ getKeyByPathDispatchFuel 1 (regStateWith systemFileEmpty)
          "HKEY_LOCAL_MACHINE\\SystemX"
        = .ok (some ("HKEY_LOCAL_MACHINE\\SYSTEM", systemFileEmpty, "X"))) :=
  ⟨rfl, C10_prefix_match_is_textual systemFileEmpty "HKEY_LOCAL_MACHINE\\SYSTEMX" rfl⟩
